import Mathlib

/-!
Verification development for the version-descriptor resolution engine of
magical-launcher-core (src/core/version.rs).

The Rust code operates on dynamically-typed JSON (serde_json::Value); we embed
JSON values as an inductive type.  Panics (unwrap on missing data, indexing a
serde_json::Map with a missing key, the explicit panic on incomplete versions)
are modelled by Option / an explicit ParseResult.panic constructor.  The
external regex engine used for os.version patterns is abstracted as a total
match predicate passed as a parameter; regex compilation is assumed to succeed.
-/

/-- JSON values, mirroring serde_json::Value.  Numbers are modelled as
integers; the code only reads them via as_u64. -/
inductive JValue where
  | null : JValue
  | bool : Bool → JValue
  | num : Int → JValue
  | str : String → JValue
  | arr : List JValue → JValue
  | obj : List (String × JValue) → JValue

/-- Lookup in a JSON object's field list, mirroring serde_json::Map::get
(deserialized maps have unique keys; first match is taken). -/
def lookupObj (fields : List (String × JValue)) (key : String) : Option JValue :=
  List.lookup key fields

/-- Indexing a serde_json::Value with a string key: returns the field value
when the receiver is an object containing the key, and Null otherwise
(this is the non-panicking Index impl on Value). -/
def jIndex (v : JValue) (key : String) : JValue :=
  match v with
  | .obj fields => (lookupObj fields key).getD .null
  | _ => .null

def JValue.asStr : JValue → Option String
  | .str s => some s
  | _ => none

def JValue.asArr : JValue → Option (List JValue)
  | .arr xs => some xs
  | _ => none

def JValue.asObj : JValue → Option (List (String × JValue))
  | .obj fields => some fields
  | _ => none

/-- Mirrors Value::as_u64: succeeds only on non-negative integer numbers. -/
def JValue.asU64 : JValue → Option Nat
  | .num n => if 0 ≤ n then some n.toNat else none
  | _ => none

def JValue.isObj (v : JValue) : Bool :=
  match v with
  | .obj _ => true
  | _ => false

def JValue.isStr (v : JValue) : Bool :=
  match v with
  | .str _ => true
  | _ => false

/-- Modelled from the spec: the PlatformInfo type (src/core/mod.rs is not part
of the provided sources).  The Platform Probe supplies an os name, os version
and arch triple, read-only for the duration of a resolution. -/
structure PlatformInfo where
  name : String
  version : String
  arch : String
deriving DecidableEq

/-- Outcome of processing one rule inside check_allowed's loop: panic
(action missing), an early `return false` (the os-name-plus-features clause),
or continuation with the updated running decision. -/
inductive RuleStep where
  | panic : RuleStep
  | deny : RuleStep
  | cont : Bool → RuleStep

/-- One iteration of the loop body of check_allowed (src/core/version.rs
lines 671-700).  `rm` abstracts Regex::is_match for os.version patterns. -/
def ruleStep (rm : String → String → Bool) (p : PlatformInfo) (allow : Bool)
    (rule : JValue) : RuleStep :=
  match (jIndex rule "action").asStr with
  | none => .panic
  | some a =>
    let action := a = "allow"
    let os := jIndex rule "os"
    match os.asObj with
    | none => .cont action
    | some _ =>
      match (jIndex os "name").asStr with
      | none => .cont action
      | some osName =>
        if p.name ≠ osName then .cont allow
        else if (jIndex os "features").isObj then .deny
        else
          match (jIndex os "version").asStr with
          | none => .cont action
          | some ver => if rm ver p.version then .cont action else .cont allow

/-- The rule-scanning loop of check_allowed, starting from a running
decision `allow`.  none models a panic inside the loop. -/
def checkRules (rm : String → String → Bool) (p : PlatformInfo) :
    List JValue → Bool → Option Bool
  | [], allow => some allow
  | r :: rest, allow =>
    match ruleStep rm p allow r with
    | .panic => none
    | .deny => some false
    | .cont a => checkRules rm p rest a

/-- Embedding of check_allowed (src/core/version.rs lines 664-702):
empty rule list is allowed; otherwise the scan starts from denied. -/
def checkAllowed (rm : String → String → Bool) (rules : List JValue)
    (p : PlatformInfo) : Option Bool :=
  if rules.isEmpty then some true
  else checkRules rm p rules false

/-- Spec-side definition (for C6): whether a rule matches a platform, in the
words of the spec.  A rule with no OS-name constraint always matches; one with
an OS name matches only if the name equals the platform's and any version
pattern matches the platform's version. -/
def ruleMatches (rm : String → String → Bool) (p : PlatformInfo)
    (r : JValue) : Bool :=
  match (jIndex r "os").asObj with
  | none => true
  | some _ =>
    match (jIndex (jIndex r "os") "name").asStr with
    | none => true
    | some n =>
      if p.name ≠ n then false
      else
        match (jIndex (jIndex r "os") "version").asStr with
        | none => true
        | some ver => rm ver p.version

/-- Spec-side definition (for C6): the Allow/Deny action a rule carries. -/
def ruleAction (r : JValue) : Bool :=
  ((jIndex r "action").asStr).getD "" = "allow"

/-- The condition under which check_allowed executes its early
`return false` (src/core/version.rs lines 682-687): the rule's os clause is an
object, carries a string name equal to the platform's os name, and carries a
features object. -/
def quirkOS (p : PlatformInfo) (r : JValue) : Bool :=
  match (jIndex r "os").asObj with
  | none => false
  | some _ =>
    match (jIndex (jIndex r "os") "name").asStr with
    | none => false
    | some n =>
      if p.name = n then (jIndex (jIndex r "os") "features").isObj else false

structure LibraryDownload where
  sha1 : String
  size : Nat
  url : String
  path : String
deriving DecidableEq

structure ResolvedLibrary where
  downloadInfo : LibraryDownload
  isNativeLibrary : Bool
deriving DecidableEq

/-- Mirrors serde_json::from_value for LibraryDownload, whose unwrap in
resolve_libraries panics when the artifact object lacks any of the four
required fields (sha1, size, url, path) with the right types. -/
def artifactToDownload (v : JValue) : Option LibraryDownload :=
  match v.asObj with
  | none => none
  | some _ =>
    match (jIndex v "sha1").asStr, (jIndex v "size").asU64,
        (jIndex v "url").asStr, (jIndex v "path").asStr with
    | some s, some n, some u, some pa => some (LibraryDownload.mk s n u pa)
    | _, _, _, _ => none

/-- Mirrors Rust str::split(":").collect::<Vec>>: split on every colon,
keeping empty segments. -/
def splitOnColonAux : List Char → List Char → List String
  | [], acc => [String.mk acc.reverse]
  | c :: cs, acc =>
    if c = ':' then String.mk acc.reverse :: splitOnColonAux cs []
    else splitOnColonAux cs (c :: acc)

def splitOnColon (s : String) : List String :=
  splitOnColonAux s.toList []

/-- Mirrors str::replace(".", "/"): a single-character pattern replace is a
character map. -/
def replaceDotsWithSlashes (s : String) : String :=
  String.mk (s.toList.map fun c => if c = '.' then '/' else c)

/-- The artifact / legacy-maven tail of resolve_libraries' loop body
(src/core/version.rs lines 618-658), reached after the native-classifier
block.  `acc` holds the records already pushed for this entry.  none models a
panic (the serde unwrap on a malformed artifact object). -/
def resolveCommon (lib : JValue) (acc : List ResolvedLibrary) :
    Option (List ResolvedLibrary) :=
  if (jIndex (jIndex lib "downloads") "artifact").isObj then
    match artifactToDownload (jIndex (jIndex lib "downloads") "artifact") with
    | none => none
    | some d => some (acc ++ [ResolvedLibrary.mk d false])
  else
    match (jIndex lib "name").asStr with
    | none => some acc
    | some nm =>
      match splitOnColon nm with
      | [gg, aa, vv] =>
        let package := replaceDotsWithSlashes gg
        let url :=
          match (jIndex lib "url").asStr with
          | some u => u
          | none => "http://files.minecraftforge.net/maven/"
        let path := package ++ "/" ++ aa ++ "/" ++ vv ++ "/" ++ aa ++ "-" ++ vv ++ ".jar"
        some (acc ++ [ResolvedLibrary.mk (LibraryDownload.mk "" 0 (url ++ path) path) false])
      | _ => some acc

/-- The body of resolve_libraries' loop after the rules check
(src/core/version.rs lines 587-658).  When both downloads.classifiers and
natives are objects, every map access in the native block uses
serde_json::Map's panicking Index impl: the natives map indexed with the
platform name, the classifiers map indexed with the classifier key, and the
selected classifier object indexed with sha1, size, url and path - a missing
key is a panic (none), not a skip.  A non-string native key or non-object
classifier is a continue (lines 594-600): the whole entry is skipped, with no
fall-through to the artifact/legacy branch, as are a present-but-non-string
url or path (lines 606-613). -/
def resolveBody (p : PlatformInfo) (lib : JValue) :
    Option (List ResolvedLibrary) :=
  match ((jIndex (jIndex lib "downloads") "classifiers").asObj),
      ((jIndex lib "natives").asObj) with
  | some cls, some nat =>
    match lookupObj nat p.name with
    | none => none
    | some keyVal =>
      match keyVal.asStr with
      | none => some []
      | some key =>
        match lookupObj cls key with
        | none => none
        | some cv =>
          match cv.asObj with
          | none => some []
          | some cfs =>
            match lookupObj cfs "sha1" with
            | none => none
            | some sv =>
              match lookupObj cfs "size" with
              | none => none
              | some zv =>
                match lookupObj cfs "url" with
                | none => none
                | some uv =>
                  match uv.asStr with
                  | none => some []
                  | some u =>
                    match lookupObj cfs "path" with
                    | none => none
                    | some pv =>
                      match pv.asStr with
                      | none => some []
                      | some pa =>
                        resolveCommon lib
                          [ResolvedLibrary.mk
                            (LibraryDownload.mk (sv.asStr.getD "") (zv.asU64.getD 0) u pa) true]
  | _, _ => resolveCommon lib []

/-- One full iteration of resolve_libraries' loop: the rules check first
(a Deny skips the entry, a panic inside check_allowed propagates), then the
native / artifact / legacy dispatch. -/
def resolveOne (rm : String → String → Bool) (p : PlatformInfo) (lib : JValue) :
    Option (List ResolvedLibrary) :=
  match (jIndex lib "rules").asArr with
  | some rules =>
    match checkAllowed rm rules p with
    | none => none
    | some false => some []
    | some true => resolveBody p lib
  | none => resolveBody p lib

/-- Embedding of resolve_libraries (src/core/version.rs lines 577-661):
concatenate each entry's records in order; a panic anywhere aborts. -/
def resolveLibraries (rm : String → String → Bool) (p : PlatformInfo) :
    List JValue → Option (List ResolvedLibrary)
  | [] => some []
  | lib :: rest => do
    let xs ← resolveOne rm p lib
    let ys ← resolveLibraries rm p rest
    pure (xs ++ ys)

/-- The value-emitting tail of _resolve_arguments' loop body: a string value
is pushed; an array value is pushed element-wise, each element unwrapped as a
string (a non-string element is a panic). -/
def valuePart (arg : JValue) : Option (List String) :=
  match (jIndex arg "value").asStr with
  | some s => some [s]
  | none =>
    match (jIndex arg "value").asArr with
    | some vs => vs.mapM JValue.asStr
    | none => some []

/-- One iteration of _resolve_arguments' loop (src/core/version.rs lines
546-573): a string argument is emitted as-is, a non-object is skipped, an
object is gated by its rules and then contributes its value(s). -/
def resolveOneArg (rm : String → String → Bool) (p : PlatformInfo)
    (arg : JValue) : Option (List String) :=
  match arg.asStr with
  | some s => some [s]
  | none =>
    if arg.isObj then
      match (jIndex arg "rules").asArr with
      | some rules =>
        match checkAllowed rm rules p with
        | none => none
        | some false => some []
        | some true => valuePart arg
      | none => valuePart arg
    else some []

/-- Embedding of _resolve_arguments (src/core/version.rs lines 544-575). -/
def resolveArguments (rm : String → String → Bool) (p : PlatformInfo)
    (arguments : List JValue) : Option (List String) :=
  (arguments.mapM (resolveOneArg rm p)).map List.flatten

/-- The built-in default game argument tokens (DEFAULT_GAME_ARGS,
src/core/version.rs lines 31-60). -/
def DEFAULT_GAME_ARGS : List String :=
  ["--username", "${auth_player_name}",
   "--version", "${version_name}",
   "--gameDir", "${game_directory}",
   "--assetsDir", "${assets_root}",
   "--assetIndex", "${asset_index}",
   "--uuid", "${auth_uuid}",
   "--accessToken", "${auth_access_token}",
   "--clientId", "${clientid}",
   "--xuid", "${auth_xuid}",
   "--userType", "${user_type}",
   "--versionType", "${version_type}",
   "--width", "${resolution_width}",
   "--height", "${resolution_height}"]

/-- The built-in default jvm argument tokens (DEFAULT_JVM_ARGS,
src/core/version.rs lines 62-84). -/
def DEFAULT_JVM_ARGS : List String :=
  ["\"-Djava.library.path=${natives_directory}\"",
   "\"-Dminecraft.launcher.brand=${launcher_name}\"",
   "\"-Dminecraft.launcher.version=${launcher_version}\"",
   "\"-Dfile.encoding=UTF-8\"",
   "\"-Dsun.stdout.encoding=UTF-8\"",
   "\"-Dsun.stderr.encoding=UTF-8\"",
   "\"-Djava.rmi.server.useCodebaseOnly=true\"",
   "\"-XX:MaxInlineSize=420\"",
   "\"-XX:-UseAdaptiveSizePolicy\"",
   "\"-XX:-OmitStackTraceInFastThrow\"",
   "\"-XX:-DontCompileHugeMethods\"",
   "\"-Dcom.sun.jndi.rmi.object.trustURLCodebase=false\"",
   "\"-Dcom.sun.jndi.cosnaming.object.trustURLCodebase=false\"",
   "\"-Dlog4j2.formatMsgNoLookups=true\"",
   "-cp", "${classpath}"]

structure Download where
  sha1 : String
  size : Nat
  url : String
deriving DecidableEq

structure AssetIndex where
  size : Nat
  url : String
  id : String
  totalSize : Nat
deriving DecidableEq

structure JavaVersion where
  component : String
  majorVersion : Int
deriving DecidableEq

structure LoggingFileDownload where
  id : String
  sha1 : String
  size : Nat
  url : String
deriving DecidableEq

structure Logging where
  file : LoggingFileDownload
  argument : String
  type : String
deriving DecidableEq

/-- The raw arguments section: optional game and jvm arrays of untyped JSON
entries (struct Arguments in src/core/version.rs). -/
structure Arguments where
  game : Option (List JValue)
  jvm : Option (List JValue)

/-- The raw version descriptor (struct Version in src/core/version.rs):
every field optional but the id.  HashMaps are modelled as association
lists. -/
structure Version where
  id : String
  time : Option String := none
  type : Option String := none
  releaseTime : Option String := none
  inheritsFrom : Option String := none
  minimumLauncherVersion : Option Int := none
  minecraftArguments : Option String := none
  arguments : Option Arguments := none
  mainClass : Option String := none
  libraries : Option (List JValue) := none
  jar : Option String := none
  assetIndex : Option AssetIndex := none
  assets : Option String := none
  downloads : Option (List (String × Download)) := none
  client : Option String := none
  server : Option String := none
  logging : Option (List (String × Logging)) := none
  javaVersion : Option JavaVersion := none
  clientVersion : Option String := none

structure ResolvedArguments where
  game : List String
  jvm : List String
deriving DecidableEq

/-- The final output record (struct ResolvedVersion in
src/core/version.rs). -/
structure ResolvedVersion where
  id : String
  arguments : Option ResolvedArguments
  mainClass : String
  assetIndex : Option AssetIndex
  assets : String
  downloads : Option (List (String × Download))
  libraries : List ResolvedLibrary
  minimumLauncherVersion : Int
  releaseTime : String
  time : String
  versionType : String
  logging : Option (List (String × Logging))
  javaVersion : JavaVersion
  minecraftVersion : String
  inheritances : List String
  pathChain : List String
deriving DecidableEq

/-- The mutable accumulators of Version::parse's merge loop
(src/core/version.rs lines 423-457). -/
structure MergeState where
  assets : String
  minimumLauncherVersion : Int
  releaseTime : String
  time : String
  versionType : String
  logging : List (String × Logging)
  mainClass : String
  assetsIndex : AssetIndex
  javaVersion : JavaVersion
  librariesRaw : List JValue
  downloads : List (String × Download)

/-- Initial values of the merge accumulators before the loop. -/
def mergeInit : MergeState :=
  { assets := ""
    minimumLauncherVersion := 0
    releaseTime := ""
    time := ""
    versionType := ""
    logging := []
    mainClass := ""
    assetsIndex := AssetIndex.mk 0 "" "" 0
    javaVersion := JavaVersion.mk "jre-legacy" 8
    librariesRaw := []
    downloads := [] }

/-- One iteration of the merge loop (src/core/version.rs lines 459-489):
each Option field overwrites the accumulator when present,
minimum_launcher_version takes the max, library lists are appended. -/
def mergeStep (s : MergeState) (v : Version) : MergeState :=
  { assets := v.assets.getD s.assets
    minimumLauncherVersion := max (v.minimumLauncherVersion.getD 0) s.minimumLauncherVersion
    releaseTime := v.releaseTime.getD s.releaseTime
    time := v.time.getD s.time
    versionType := v.type.getD s.versionType
    logging := v.logging.getD s.logging
    mainClass := v.mainClass.getD s.mainClass
    assetsIndex := v.assetIndex.getD s.assetsIndex
    javaVersion := v.javaVersion.getD s.javaVersion
    librariesRaw := s.librariesRaw ++ v.libraries.getD []
    downloads := v.downloads.getD s.downloads }

/-- The merge loop: versions are popped from the back of the leaf-to-root
list, i.e. processed in root-to-leaf order. -/
def mergeVersions (versions : List Version) : MergeState :=
  versions.reverse.foldl mergeStep mergeInit

/-- Outcome of the inheritance walk of Version::parse (src/core/version.rs
lines 403-421).  The walk has no cycle guard; diverge records that the given
fuel was exhausted without the loop ending, for every fuel, i.e.
nontermination. -/
inductive WalkResult where
  | ok : List Version → List String → List String → WalkResult
  | missing : String → WalkResult
  | diverge : WalkResult

/-- The inheritance walk: follow inherits_from pointers, loading each parent
descriptor (read_to_string + serde parse, abstracted as `loader`; a missing or
unparsable file is the propagated error).  The id, path and version lists grow
exactly as in the source. -/
def walkChain (loader : String → Option Version) (folder : String) :
    Nat → Option String → List Version → List String → List String → WalkResult
  | _, none, versions, inheritances, paths => .ok versions inheritances paths
  | 0, some _, _, _, _ => .diverge
  | Nat.succ fuel, some id, versions, inheritances, paths =>
    match loader id with
    | none => .missing id
    | some v =>
      walkChain loader folder fuel v.inheritsFrom (versions ++ [v])
        (inheritances ++ [id])
        (paths ++ [folder ++ "/" ++ id ++ "/" ++ id ++ ".json"])

/-- Result of Version::parse: success, a propagated loader error (the ?
operator on read_to_string / serde_json::from_str), the explicit
panic!("Bad Version JSON") or a panic inside library resolution, or
divergence of the unguarded inheritance walk. -/
inductive ParseResult where
  | ok : ResolvedVersion → ParseResult
  | ioError : String → ParseResult
  | panic : ParseResult
  | diverge : ParseResult
deriving DecidableEq

/-- The post-walk phase of Version::parse (src/core/version.rs lines 423-528):
merge the chain root-to-leaf, panic when the merged main_class is empty, the
merged asset index is structurally default, or the merged downloads map is
empty, and otherwise build the ResolvedVersion exactly as the source does -
the argument lists are always the defaults, and asset_index, assets,
downloads, logging and java_version are taken from self (the leaf), not from
the merge accumulators. -/
def buildResolved (rm : String → String → Bool) (platform : PlatformInfo)
    (self : Version) (versions : List Version)
    (inheritances pathChain : List String) : ParseResult :=
  if (mergeVersions versions).mainClass = "" ∨
      (mergeVersions versions).assetsIndex = AssetIndex.mk 0 "" "" 0 ∨
      (mergeVersions versions).downloads = []
  then .panic
  else
    match resolveLibraries rm platform (mergeVersions versions).librariesRaw with
    | none => .panic
    | some libs =>
      .ok { id := self.id
            arguments := some (ResolvedArguments.mk DEFAULT_GAME_ARGS DEFAULT_JVM_ARGS)
            mainClass := (mergeVersions versions).mainClass
            assetIndex := self.assetIndex
            assets := self.assets.getD ""
            downloads := self.downloads
            libraries := libs
            minimumLauncherVersion := (mergeVersions versions).minimumLauncherVersion
            releaseTime := (mergeVersions versions).releaseTime
            time := (mergeVersions versions).time
            versionType := (mergeVersions versions).versionType
            logging := self.logging
            javaVersion := self.javaVersion.getD (JavaVersion.mk "jre-legacy" 8)
            minecraftVersion := self.clientVersion.getD self.id
            inheritances := inheritances
            pathChain := pathChain }

/-- Embedding of Version::parse (src/core/version.rs lines 398-529): walk the
inheritance chain (which has no cycle guard), then merge and build. -/
def Version.parse (rm : String → String → Bool) (loader : String → Option Version)
    (folder : String) (fuel : Nat) (platform : PlatformInfo) (self : Version) :
    ParseResult :=
  match walkChain loader folder fuel self.inheritsFrom [self] [] [] with
  | .diverge => .diverge
  | .missing id => .ioError id
  | .ok versions inheritances pathChain =>
    buildResolved rm platform self versions inheritances pathChain

/-- Projection used to state claims about the downloads field of a successful
parse. -/
def parseDownloads : ParseResult → Option (Option (List (String × Download)))
  | .ok rv => some rv.downloads
  | _ => none

/-- Projection: the resolved game argument token list of a successful parse. -/
def gameArgsOf : ParseResult → Option (List String)
  | .ok rv =>
    match rv.arguments with
    | some a => some a.game
    | none => none
  | _ => none

/-- Projection: the resolved argument pair of a successful parse. -/
def argsOf : ParseResult → Option (Option ResolvedArguments)
  | .ok rv => some rv.arguments
  | _ => none

/-- Whether a parse succeeded. -/
def isOk : ParseResult → Bool
  | .ok _ => true
  | _ => false

/-- Trivial regex matcher used to instantiate concrete examples whose rules
carry no version patterns. -/
def rm0 : String → String → Bool := fun _ _ => false

def windowsP : PlatformInfo := PlatformInfo.mk "windows" "10" "x64"

def linuxP : PlatformInfo := PlatformInfo.mk "linux" "5.10" "x64"

/-- Loader over an empty versions folder. -/
def loaderNone : String → Option Version := fun _ => none

/-- Rule list of the spec's last-match-wins example: Allow with no os clause,
then Deny (disallow) gated on os name linux. -/
def exRules : List JValue :=
  [JValue.obj [("action", JValue.str "allow")],
   JValue.obj [("action", JValue.str "disallow"),
               ("os", JValue.obj [("name", JValue.str "linux")])]]

/-- The quirk rule of C7: an Allow rule whose os clause has both a name and a
features object. -/
def quirkRule : JValue :=
  JValue.obj [("action", JValue.str "allow"),
              ("os", JValue.obj
                [("name", JValue.str "linux"),
                 ("features", JValue.obj [("has_custom_resolution", JValue.bool true)])])]

/-- Rule list for the C7 counterexample: an unconditional Allow followed by
the quirk rule naming linux. -/
def rules7 : List JValue :=
  [JValue.obj [("action", JValue.str "allow")], quirkRule]

/-- The Classified library of the spec's section 8 example: native-key map
sends linux to natives-linux, and the classifiers map carries that entry. -/
def exNativeLib : JValue :=
  JValue.obj
    [("downloads", JValue.obj
       [("classifiers", JValue.obj
          [("natives-linux", JValue.obj
             [("url", JValue.str "U"), ("path", JValue.str "P"),
              ("sha1", JValue.str "S"), ("size", JValue.num 10)])])]),
     ("natives", JValue.obj [("linux", JValue.str "natives-linux")])]

/-- A library carrying both a platform-matching natives/classifiers pair and a
downloads.artifact object (for C10). -/
def bothLib : JValue :=
  JValue.obj
    [("downloads", JValue.obj
       [("classifiers", JValue.obj
          [("natives-linux", JValue.obj
             [("sha1", JValue.str "S"), ("size", JValue.num 10),
              ("url", JValue.str "U"), ("path", JValue.str "P")])]),
        ("artifact", JValue.obj
          [("sha1", JValue.str "as"), ("size", JValue.num 5),
           ("url", JValue.str "au"), ("path", JValue.str "ap")])]),
     ("natives", JValue.obj [("linux", JValue.str "natives-linux")])]

/-- A library entry with a platform-matching natives/classifiers pair and an
artifact object whose selected classifier lacks the sha1 (and size) keys (for
the C10 counterexample). -/
def noSha1Lib : JValue :=
  JValue.obj
    [("downloads", JValue.obj
       [("classifiers", JValue.obj
          [("natives-linux", JValue.obj
             [("url", JValue.str "U"), ("path", JValue.str "P")])]),
        ("artifact", JValue.obj
          [("sha1", JValue.str "as"), ("size", JValue.num 5),
           ("url", JValue.str "au"), ("path", JValue.str "ap")])]),
     ("natives", JValue.obj [("linux", JValue.str "natives-linux")])]

/-- Leaf descriptor A of the cyclic chain A -> B -> A. -/
def vA : Version := { id := "A", inheritsFrom := some "B" }

/-- Descriptor B of the cyclic chain, pointing back to A. -/
def vB : Version := { id := "B", inheritsFrom := some "A" }

/-- Loader for the cyclic chain. -/
def loaderCyc : String → Option Version := fun id =>
  if id = "A" then some vA else if id = "B" then some vB else none

/-- A descriptor with nothing but an id: its merged main_class stays empty. -/
def bareLeaf : Version := { id := "a" }

/-- Leaf of the C5 chain: complete except that it has no downloads map. -/
def leafL : Version :=
  { id := "L", inheritsFrom := some "P", mainClass := some "M",
    assetIndex := some (AssetIndex.mk 1 "u" "ai" 1) }

/-- Parent of the C5 chain: supplies a non-empty downloads map. -/
def parentP : Version :=
  { id := "P", downloads := some [("client", Download.mk "s" 1 "u")] }

/-- Loader for the C5 chain. -/
def loaderLP : String → Option Version := fun id =>
  if id = "P" then some parentP else none

/-- A complete stand-alone descriptor that also supplies a game argument
template, for the C4 counterexample. -/
def leafArgs : Version :=
  { id := "a", mainClass := some "M",
    assetIndex := some (AssetIndex.mk 1 "u" "ai" 1),
    downloads := some [("client", Download.mk "s" 1 "u")],
    arguments := some (Arguments.mk (some [JValue.str "--demo"]) (some [])) }

/-- Leaf of the spec's override-precedence example: main_class A. -/
def leafMainA : Version := { id := "leaf", mainClass := some "A" }

/-- The same leaf with main_class omitted. -/
def leafNoMain : Version := { id := "leaf" }

/-- Parent of the override-precedence example: main_class B. -/
def parentMainB : Version := { id := "parent", mainClass := some "B" }

theorem resolveLibraries_cons (rm : String → String → Bool) (p : PlatformInfo)
    (lib : JValue) (rest : List JValue) :
    resolveLibraries rm p (lib :: rest) =
      (resolveOne rm p lib).bind
        (fun xs => (resolveLibraries rm p rest).map (fun ys => xs ++ ys)) := by
  cases h1 : resolveOne rm p lib with
  | none => simp [resolveLibraries, h1]
  | some xs =>
    cases h2 : resolveLibraries rm p rest with
    | none => simp [resolveLibraries, h1, h2]
    | some ys => simp [resolveLibraries, h1, h2]

theorem mergeVersions_foldr (l : List Version) :
    mergeVersions l = l.foldr (fun v s => mergeStep s v) mergeInit := by
  unfold mergeVersions
  rw [List.foldl_reverse]

/-- Each overwrite-style accumulator of the merge loop ends up holding the
first non-absent value in leaf-to-root order, i.e. the latest non-absent value
in the loop's root-to-leaf processing order. -/
theorem mergeProj {α : Type} (f : Version → Option α) (proj : MergeState → α)
    (hstep : ∀ s v, proj (mergeStep s v) = (f v).getD (proj s)) :
    ∀ l : List Version,
      proj (mergeVersions l) = ((l.filterMap f).head?).getD (proj mergeInit) := by
  intro l
  rw [mergeVersions_foldr]
  induction l with
  | nil => simp
  | cons v t ih =>
    rw [List.foldr_cons, hstep]
    cases hf : f v with
    | none => simp [List.filterMap_cons, hf, ih]
    | some b => simp [List.filterMap_cons, hf]

/-- The inheritance walk never ends on the cyclic A/B loader, whatever the
accumulators, for every fuel bound. -/
theorem walkChain_cyc (fuel : Nat) : ∀ vs is ps,
    walkChain loaderCyc "versions" fuel (some "A") vs is ps = .diverge ∧
    walkChain loaderCyc "versions" fuel (some "B") vs is ps = .diverge := by
  induction fuel with
  | zero => intro vs is ps; exact ⟨rfl, rfl⟩
  | succ n ih =>
    intro vs is ps
    exact ⟨(ih (vs ++ [vA]) (is ++ ["A"]) (ps ++ ["versions/A/A.json"])).2,
           (ih (vs ++ [vB]) (is ++ ["B"]) (ps ++ ["versions/B/B.json"])).1⟩

/-- C1: the claim says that on a cyclic inheritance chain A -> B -> A,
Version::parse terminates and fails with a CyclicInheritance error.  The code
has no visited set and no CyclicInheritance error at all: the walk re-reads
the descriptors forever.  Modelling the while-loop with a fuel bound, parse
diverges (exhausts every fuel bound) instead of returning any result. -/
theorem parse_diverges_on_cycle (fuel : Nat) :
    Version.parse rm0 loaderCyc "versions" fuel windowsP vA = .diverge := by
  unfold Version.parse
  rw [show vA.inheritsFrom = some "B" from rfl,
    (walkChain_cyc fuel [vA] [] []).2]

/-- C2: the claim says a merged descriptor with an empty main_class (or
default asset index, or empty downloads) yields a recoverable
IncompleteVersion error result.  The code instead executes
panic!("Bad Version JSON") (src/core/version.rs line 501): on a bare
descriptor whose merged main_class stays empty, parse is a process abort, not
an error result. -/
theorem parse_panics_on_incomplete :
    Version.parse rm0 loaderNone "versions" 0 windowsP bareLeaf = .panic := by
  decide

/-- C3: the claim says a Classified library whose native-key map lacks the
platform's OS name (or whose classifiers map lacks the looked-up key) is
silently dropped.  The code indexes the serde_json::Map with the panicking
Index impl, so the section-8 example library, with native keys only for
linux, panics when resolved on windows instead of being skipped; the same
library on linux resolves to the expected single native record. -/
theorem resolveLibraries_panics_on_missing_native_key :
    resolveLibraries rm0 windowsP [exNativeLib] = none ∧
    resolveLibraries rm0 linuxP [exNativeLib] =
      some [ResolvedLibrary.mk (LibraryDownload.mk "S" 10 "U" "P") true] := by
  exact ⟨by decide, by decide⟩

/-- C5: the claim says the downloads map of the ResolvedVersion output is the
merged (latest non-absent, wholesale-replaced) map and is non-empty.  The
merge loop does compute that map and checks it is non-empty, but the output
record carries self.downloads - the leaf's own field: on a chain whose leaf
omits downloads while the parent supplies a non-empty map, the output
downloads field is None even though the merged map is the parent's non-empty
one. -/
theorem parse_downloads_is_leaf_field_not_merged :
    parseDownloads (Version.parse rm0 loaderLP "versions" 1 windowsP leafL) =
      some none ∧
    (mergeVersions [leafL, parentP]).downloads =
      [("client", Download.mk "s" 1 "u")] := by
  exact ⟨by decide, by decide⟩

/-- C8: every overwrite-style scalar of the merge loop (main_class, assets
id, asset index, version type, release/build timestamps, logging config, java
runtime requirement) merges to the latest non-absent value in root-to-leaf
processing order, which is the first non-absent value of the leaf-to-root
chain list; and the spec's concrete example: chain [leaf, parent] with leaf
main_class A and parent main_class B merges to A, and with the leaf omitting
main_class it merges to B. -/
theorem merge_scalars_latest_nonabsent_wins (chain : List Version) :
    (mergeVersions chain).mainClass =
      ((chain.filterMap Version.mainClass).head?).getD "" ∧
    (mergeVersions chain).assets =
      ((chain.filterMap Version.assets).head?).getD "" ∧
    (mergeVersions chain).assetsIndex =
      ((chain.filterMap Version.assetIndex).head?).getD (AssetIndex.mk 0 "" "" 0) ∧
    (mergeVersions chain).versionType =
      ((chain.filterMap Version.type).head?).getD "" ∧
    (mergeVersions chain).releaseTime =
      ((chain.filterMap Version.releaseTime).head?).getD "" ∧
    (mergeVersions chain).time =
      ((chain.filterMap Version.time).head?).getD "" ∧
    (mergeVersions chain).logging =
      ((chain.filterMap Version.logging).head?).getD [] ∧
    (mergeVersions chain).javaVersion =
      ((chain.filterMap Version.javaVersion).head?).getD (JavaVersion.mk "jre-legacy" 8) ∧
    (mergeVersions [leafMainA, parentMainB]).mainClass = "A" ∧
    (mergeVersions [leafNoMain, parentMainB]).mainClass = "B" := by
  refine ⟨mergeProj _ _ (fun s v => rfl) chain,
    mergeProj _ _ (fun s v => rfl) chain,
    mergeProj _ _ (fun s v => rfl) chain,
    mergeProj _ _ (fun s v => rfl) chain,
    mergeProj _ _ (fun s v => rfl) chain,
    mergeProj _ _ (fun s v => rfl) chain,
    mergeProj _ _ (fun s v => rfl) chain,
    mergeProj _ _ (fun s v => rfl) chain,
    by decide, by decide⟩

/-- A non-quirky rule with a well-formed action just updates the running
decision: the new decision is its action when it matches, the old one
otherwise. -/
theorem ruleStep_cont_eq (rm : String → String → Bool) (p : PlatformInfo)
    (allow : Bool) (r : JValue) (a : String)
    (ha : (jIndex r "action").asStr = some a)
    (hq : quirkOS p r = false) :
    ruleStep rm p allow r =
      .cont (if ruleMatches rm p r then ruleAction r else allow) := by
  cases hos : (jIndex r "os").asObj with
  | none => simp [ruleStep, ruleMatches, ruleAction, ha, hos]
  | some fields =>
    cases hn : (jIndex (jIndex r "os") "name").asStr with
    | none => simp [ruleStep, ruleMatches, ruleAction, ha, hos, hn]
    | some n =>
      by_cases hpn : p.name = n
      · have hq' : (jIndex (jIndex r "os") "features").isObj = false := by
          simpa [quirkOS, hos, hn, hpn] using hq
        cases hv : (jIndex (jIndex r "os") "version").asStr with
        | none => simp [ruleStep, ruleMatches, ruleAction, ha, hos, hn, hpn, hq', hv]
        | some ver =>
          cases hrm : rm ver p.version with
          | true => simp [ruleStep, ruleMatches, ruleAction, ha, hos, hn, hpn, hq', hv, hrm]
          | false => simp [ruleStep, ruleMatches, ruleAction, ha, hos, hn, hpn, hq', hv, hrm]
      · simp [ruleStep, ruleMatches, ha, hos, hn, hpn]

/-- A rule satisfying the quirk condition makes the loop return false
immediately, whatever its action says. -/
theorem ruleStep_deny_eq (rm : String → String → Bool) (p : PlatformInfo)
    (allow : Bool) (r : JValue) (a : String)
    (ha : (jIndex r "action").asStr = some a)
    (hq : quirkOS p r = true) :
    ruleStep rm p allow r = .deny := by
  cases hos : (jIndex r "os").asObj with
  | none => simp [quirkOS, hos] at hq
  | some fields =>
    cases hn : (jIndex (jIndex r "os") "name").asStr with
    | none => simp [quirkOS, hos, hn] at hq
    | some n =>
      by_cases hpn : p.name = n
      · have hf : (jIndex (jIndex r "os") "features").isObj = true := by
          simpa [quirkOS, hos, hn, hpn] using hq
        simp [ruleStep, ha, hos, hn, hpn, hf]
      · simp [quirkOS, hos, hn, hpn] at hq

/-- On rule lists whose actions all parse and which contain no quirk clause,
the scanning loop computes the spec's last-match-wins fold. -/
theorem checkRules_eq_foldl (rm : String → String → Bool) (p : PlatformInfo) :
    ∀ (rules : List JValue) (allow : Bool),
      (∀ r ∈ rules, ((jIndex r "action").asStr).isSome = true) →
      (∀ r ∈ rules, quirkOS p r = false) →
      checkRules rm p rules allow =
        some (rules.foldl
          (fun acc r => if ruleMatches rm p r then ruleAction r else acc) allow)
  | [], allow, _, _ => rfl
  | r :: rest, allow, h1, h2 => by
    obtain ⟨a, ha⟩ := Option.isSome_iff_exists.mp (h1 r (by simp))
    rw [List.foldl_cons]
    have hstep := ruleStep_cont_eq rm p allow r a ha (h2 r (by simp))
    simp only [checkRules, hstep]
    exact checkRules_eq_foldl rm p rest _
      (fun x hx => h1 x (by simp [hx])) (fun x hx => h2 x (by simp [hx]))

/-- If some rule in the list is a quirk clause (and every action parses so no
earlier rule panics), the whole evaluation returns false. -/
theorem checkRules_quirk (rm : String → String → Bool) (p : PlatformInfo) :
    ∀ (rules : List JValue) (allow : Bool),
      (∀ r ∈ rules, ((jIndex r "action").asStr).isSome = true) →
      (∃ r ∈ rules, quirkOS p r = true) →
      checkRules rm p rules allow = some false
  | [], _, _, h2 => by simp at h2
  | r :: rest, allow, h1, h2 => by
    obtain ⟨a, ha⟩ := Option.isSome_iff_exists.mp (h1 r (by simp))
    cases hq : quirkOS p r with
    | true => simp [checkRules, ruleStep_deny_eq rm p allow r a ha hq]
    | false =>
      have hstep := ruleStep_cont_eq rm p allow r a ha hq
      simp only [checkRules, hstep]
      obtain ⟨x, hx, hxq⟩ := h2
      rcases List.mem_cons.mp hx with hxr | hxrest
      · rw [hxr] at hxq; rw [hxq] at hq; cases hq
      · exact checkRules_quirk rm p rest _
          (fun y hy => h1 y (by simp [hy])) ⟨x, hxrest, hxq⟩

/-- C6: check_allowed returns allowed on an empty rule list for any platform;
on a non-empty list it folds from denied, each matching rule overwriting the
running decision with its own action (last matching rule wins), provided
every rule's action parses and no rule is the os-name-plus-features quirk
clause (that clause is claimed separately, C7); and the spec's concrete
example list evaluates to false on linux and true on windows. -/
theorem checkAllowed_last_match_wins (rm : String → String → Bool)
    (p : PlatformInfo) (rules : List JValue)
    (h1 : ∀ r ∈ rules, ((jIndex r "action").asStr).isSome = true)
    (h2 : ∀ r ∈ rules, quirkOS p r = false) :
    checkAllowed rm rules p =
      some (if rules.isEmpty then true
        else rules.foldl
          (fun acc r => if ruleMatches rm p r then ruleAction r else acc) false) ∧
    checkAllowed rm0 exRules linuxP = some false ∧
    checkAllowed rm0 exRules windowsP = some true := by
  refine ⟨?_, by decide, by decide⟩
  cases rules with
  | nil => rfl
  | cons r rest =>
    simp only [checkAllowed, List.isEmpty_cons, if_neg]
    simpa using checkRules_eq_foldl rm p (r :: rest) false h1 h2

/-- C6 witness: the general statement instantiated on the spec's example rule
list and the linux platform, hypotheses discharged by evaluation. -/
theorem checkAllowed_last_match_wins_witness :
    (∀ r ∈ exRules, ((jIndex r "action").asStr).isSome = true) ∧
    checkAllowed rm0 exRules linuxP =
      some (if exRules.isEmpty then true
        else exRules.foldl
          (fun acc r => if ruleMatches rm0 linuxP r then ruleAction r else acc) false) :=
  ⟨by decide, (checkAllowed_last_match_wins rm0 linuxP exRules (by decide) (by decide)).1⟩

/-- C7 counterexample: the claim says any rule list containing a rule whose os
clause has both a name and a features object evaluates to denied regardless of
the other rules.  The early return-false only fires when the clause's os name
equals the platform's: on windows, the list [Allow(no os), Allow(os=linux with
features)] evaluates to allowed, not denied. -/
theorem checkAllowed_quirk_counterexample :
    checkAllowed rm0 rules7 windowsP = some true := by
  decide

/-- C7 amended: a rule whose os clause carries both a name and a features
object forces the whole evaluation to denied exactly when that os name equals
the platform's os name (and every rule's action parses, so the scan reaches
it); a non-matching name makes the rule a skipped no-op instead. -/
theorem checkAllowed_quirk_denies_on_name_match (rm : String → String → Bool)
    (p : PlatformInfo) (rules : List JValue)
    (h1 : ∀ r ∈ rules, ((jIndex r "action").asStr).isSome = true)
    (h2 : ∃ r ∈ rules, quirkOS p r = true) :
    checkAllowed rm rules p = some false := by
  cases rules with
  | nil => simp at h2
  | cons r rest =>
    simp only [checkAllowed, List.isEmpty_cons]
    simpa using checkRules_quirk rm p (r :: rest) false h1 h2

/-- C7 witness: the amended statement instantiated on a single quirk rule
whose os name matches the linux platform. -/
theorem checkAllowed_quirk_denies_witness :
    (quirkOS linuxP quirkRule = true) ∧
    checkAllowed rm0 [quirkRule] linuxP = some false :=
  ⟨by decide, checkAllowed_quirk_denies_on_name_match rm0 linuxP [quirkRule]
    (by decide) ⟨quirkRule, List.mem_singleton_self _, by decide⟩⟩

/-- The legacy branch on an entry with no explicit url uses the default
legacy-loader maven base url. -/
theorem resolveLibraries_legacy_noUrl (rm : String → String → Bool) (p : PlatformInfo)
    (coord g a v : String) (h3 : splitOnColon coord = [g, a, v]) :
    resolveLibraries rm p [JValue.obj [("name", JValue.str coord)]] =
      some [ResolvedLibrary.mk (LibraryDownload.mk "" 0
        ("http://files.minecraftforge.net/maven/" ++
          (replaceDotsWithSlashes g ++ "/" ++ a ++ "/" ++ v ++ "/" ++ a ++ "-" ++ v ++ ".jar"))
        (replaceDotsWithSlashes g ++ "/" ++ a ++ "/" ++ v ++ "/" ++ a ++ "-" ++ v ++ ".jar")) false] := by
  have hc : resolveCommon (JValue.obj [("name", JValue.str coord)]) [] =
      some [ResolvedLibrary.mk (LibraryDownload.mk "" 0
        ("http://files.minecraftforge.net/maven/" ++
          (replaceDotsWithSlashes g ++ "/" ++ a ++ "/" ++ v ++ "/" ++ a ++ "-" ++ v ++ ".jar"))
        (replaceDotsWithSlashes g ++ "/" ++ a ++ "/" ++ v ++ "/" ++ a ++ "-" ++ v ++ ".jar")) false] := by
    show (match splitOnColon coord with
      | [gg, aa, vv] =>
        some ([] ++ [ResolvedLibrary.mk (LibraryDownload.mk "" 0
          ("http://files.minecraftforge.net/maven/" ++
            (replaceDotsWithSlashes gg ++ "/" ++ aa ++ "/" ++ vv ++ "/" ++ aa ++ "-" ++ vv ++ ".jar"))
          (replaceDotsWithSlashes gg ++ "/" ++ aa ++ "/" ++ vv ++ "/" ++ aa ++ "-" ++ vv ++ ".jar")) false])
      | _ => some []) = _
    rw [h3]
    rfl
  rw [resolveLibraries_cons, show resolveOne rm p (JValue.obj [("name", JValue.str coord)]) =
    resolveCommon (JValue.obj [("name", JValue.str coord)]) [] from rfl, hc]
  rfl

theorem resolveLibraries_legacy_withUrl (rm : String → String → Bool) (p : PlatformInfo)
    (coord u g a v : String) (h3 : splitOnColon coord = [g, a, v]) :
    resolveLibraries rm p [JValue.obj [("name", JValue.str coord), ("url", JValue.str u)]] =
      some [ResolvedLibrary.mk (LibraryDownload.mk "" 0
        (u ++ (replaceDotsWithSlashes g ++ "/" ++ a ++ "/" ++ v ++ "/" ++ a ++ "-" ++ v ++ ".jar"))
        (replaceDotsWithSlashes g ++ "/" ++ a ++ "/" ++ v ++ "/" ++ a ++ "-" ++ v ++ ".jar")) false] := by
  have hc : resolveCommon (JValue.obj [("name", JValue.str coord), ("url", JValue.str u)]) [] =
      some [ResolvedLibrary.mk (LibraryDownload.mk "" 0
        (u ++ (replaceDotsWithSlashes g ++ "/" ++ a ++ "/" ++ v ++ "/" ++ a ++ "-" ++ v ++ ".jar"))
        (replaceDotsWithSlashes g ++ "/" ++ a ++ "/" ++ v ++ "/" ++ a ++ "-" ++ v ++ ".jar")) false] := by
    show (match splitOnColon coord with
      | [gg, aa, vv] =>
        some ([] ++ [ResolvedLibrary.mk (LibraryDownload.mk "" 0
          (u ++ (replaceDotsWithSlashes gg ++ "/" ++ aa ++ "/" ++ vv ++ "/" ++ aa ++ "-" ++ vv ++ ".jar"))
          (replaceDotsWithSlashes gg ++ "/" ++ aa ++ "/" ++ vv ++ "/" ++ aa ++ "-" ++ vv ++ ".jar")) false])
      | _ => some []) = _
    rw [h3]
    rfl
  rw [resolveLibraries_cons,
    show resolveOne rm p (JValue.obj [("name", JValue.str coord), ("url", JValue.str u)]) =
      resolveCommon (JValue.obj [("name", JValue.str coord), ("url", JValue.str u)]) [] from rfl, hc]
  rfl

/-- C9: a legacy library entry (no downloads section) whose name splits on
colon into exactly group, artifact and version resolves to a single non-native
record whose relative path is group-with-dots-as-slashes/artifact/version/
artifact-version.jar and whose url is the entry's explicit url, when present,
concatenated with that path, or the default legacy-loader maven base url
otherwise; an entry whose name has a different number of colon segments
yields no record and no error. -/
theorem resolveLibraries_legacy_maven (rm : String → String → Bool)
    (p : PlatformInfo) (coord u c2 g a v : String)
    (h3 : splitOnColon coord = [g, a, v])
    (hbad : (splitOnColon c2).length ≠ 3) :
    resolveLibraries rm p [JValue.obj [("name", JValue.str coord)]] =
      some [ResolvedLibrary.mk (LibraryDownload.mk "" 0
        ("http://files.minecraftforge.net/maven/" ++
          (replaceDotsWithSlashes g ++ "/" ++ a ++ "/" ++ v ++ "/" ++ a ++ "-" ++ v ++ ".jar"))
        (replaceDotsWithSlashes g ++ "/" ++ a ++ "/" ++ v ++ "/" ++ a ++ "-" ++ v ++ ".jar")) false] ∧
    resolveLibraries rm p [JValue.obj [("name", JValue.str coord), ("url", JValue.str u)]] =
      some [ResolvedLibrary.mk (LibraryDownload.mk "" 0
        (u ++ (replaceDotsWithSlashes g ++ "/" ++ a ++ "/" ++ v ++ "/" ++ a ++ "-" ++ v ++ ".jar"))
        (replaceDotsWithSlashes g ++ "/" ++ a ++ "/" ++ v ++ "/" ++ a ++ "-" ++ v ++ ".jar")) false] ∧
    resolveLibraries rm p [JValue.obj [("name", JValue.str c2)]] = some [] := by
  refine ⟨?_, ?_, ?_⟩
  · exact resolveLibraries_legacy_noUrl rm p coord g a v h3
  · exact resolveLibraries_legacy_withUrl rm p coord u g a v h3
  · have hc : resolveCommon (JValue.obj [("name", JValue.str c2)]) [] = some [] := by
      show (match splitOnColon c2 with
        | [gg, aa, vv] =>
          some ([] ++ [ResolvedLibrary.mk (LibraryDownload.mk "" 0
            ("http://files.minecraftforge.net/maven/" ++
              (replaceDotsWithSlashes gg ++ "/" ++ aa ++ "/" ++ vv ++ "/" ++ aa ++ "-" ++ vv ++ ".jar"))
            (replaceDotsWithSlashes gg ++ "/" ++ aa ++ "/" ++ vv ++ "/" ++ aa ++ "-" ++ vv ++ ".jar")) false])
        | _ => some []) = some []
      rcases hsp : splitOnColon c2 with _ | ⟨x, _ | ⟨y, _ | ⟨z, _ | ⟨w, t⟩⟩⟩⟩
      · rfl
      · rfl
      · rfl
      · rw [hsp] at hbad; exact absurd rfl hbad
      · rfl
    rw [resolveLibraries_cons,
      show resolveOne rm p (JValue.obj [("name", JValue.str c2)]) =
        resolveCommon (JValue.obj [("name", JValue.str c2)]) [] from rfl, hc]
    rfl

/-- C9 witness: the spec's concrete example coordinate, hypotheses discharged
by evaluation. -/
theorem resolveLibraries_legacy_maven_witness :
    splitOnColon "net.example:lib:1.0" = ["net.example", "lib", "1.0"] ∧
    resolveLibraries rm0 linuxP [JValue.obj [("name", JValue.str "net.example:lib:1.0")]] =
      some [ResolvedLibrary.mk (LibraryDownload.mk "" 0
        ("http://files.minecraftforge.net/maven/" ++
          (replaceDotsWithSlashes "net.example" ++ "/" ++ "lib" ++ "/" ++ "1.0" ++ "/" ++ "lib" ++ "-" ++ "1.0" ++ ".jar"))
        (replaceDotsWithSlashes "net.example" ++ "/" ++ "lib" ++ "/" ++ "1.0" ++ "/" ++ "lib" ++ "-" ++ "1.0" ++ ".jar")) false] :=
  ⟨by decide,
   (resolveLibraries_legacy_maven rm0 linuxP "net.example:lib:1.0" "https://x/"
      "net.example:lib" "net.example" "lib" "1.0" (by decide) (by decide)).1⟩

/-- C10 counterexample: the claim quantifies over every entry carrying a
platform-matching natives/classifiers pair and an artifact object.  The
classifier's own fields are read with serde_json::Map's panicking Index
(version.rs:604-605): an entry whose selected classifier lacks the sha1 key
panics, emitting nothing - not two records. -/
theorem resolveLibraries_native_then_artifact_counterexample :
    resolveLibraries rm0 linuxP [noSha1Lib] = none := by
  decide

/-- C10 amended: a library entry carrying both a platform-matching
natives/classifiers pair and a well-formed downloads.artifact object, whose
selected classifier carries its sha1, size, url and path keys with url and
path string-valued, contributes exactly two records, the native one from the
classifier first and the non-native one from the artifact second; the native
branch does not short-circuit the artifact branch, and the rest of the list
is processed after both.  (A classifier missing one of the four keys is a
panic instead; see the counterexample.) -/
theorem resolveLibraries_native_then_artifact (rm : String → String → Bool)
    (p : PlatformInfo) (lib : JValue) (rest : List JValue)
    (cls nat cfs : List (String × JValue)) (keyVal cv sv zv uv pv : JValue)
    (key u pa : String) (d : LibraryDownload)
    (hrules : (jIndex lib "rules").asArr = none)
    (hcls : ((jIndex (jIndex lib "downloads") "classifiers").asObj) = some cls)
    (hnat : ((jIndex lib "natives").asObj) = some nat)
    (hkey : lookupObj nat p.name = some keyVal)
    (hkstr : keyVal.asStr = some key)
    (hcv : lookupObj cls key = some cv)
    (hcvo : cv.asObj = some cfs)
    (hsha : lookupObj cfs "sha1" = some sv)
    (hsize : lookupObj cfs "size" = some zv)
    (hurl : lookupObj cfs "url" = some uv)
    (hustr : uv.asStr = some u)
    (hpath : lookupObj cfs "path" = some pv)
    (hpstr : pv.asStr = some pa)
    (hartobj : (jIndex (jIndex lib "downloads") "artifact").isObj = true)
    (hart : artifactToDownload (jIndex (jIndex lib "downloads") "artifact") = some d) :
    resolveLibraries rm p (lib :: rest) =
      (resolveLibraries rm p rest).map
        (fun ys =>
          ResolvedLibrary.mk
            (LibraryDownload.mk (sv.asStr.getD "") (zv.asU64.getD 0) u pa) true ::
          ResolvedLibrary.mk d false :: ys) := by
  have h1 : resolveOne rm p lib =
      some [ResolvedLibrary.mk
              (LibraryDownload.mk (sv.asStr.getD "") (zv.asU64.getD 0) u pa) true,
            ResolvedLibrary.mk d false] := by
    unfold resolveOne resolveBody resolveCommon
    simp only [hrules, hcls, hnat, hkey, hkstr, hcv, hcvo, hsha, hsize, hurl,
      hustr, hpath, hpstr, hartobj, hart, if_true, List.singleton_append]
  rw [resolveLibraries_cons, h1]
  cases h2 : resolveLibraries rm p rest with
  | none => rfl
  | some ys => rfl

/-- C10 witness: the amended statement applied to a concrete entry carrying
both a matching four-field classifier and an artifact, every hypothesis
discharged by evaluation. -/
theorem resolveLibraries_native_then_artifact_witness :
    resolveLibraries rm0 linuxP [bothLib] =
      (resolveLibraries rm0 linuxP []).map
        (fun ys =>
          ResolvedLibrary.mk
            (LibraryDownload.mk ((JValue.str "S").asStr.getD "")
              ((JValue.num 10).asU64.getD 0) "U" "P") true ::
          ResolvedLibrary.mk (LibraryDownload.mk "as" 5 "au" "ap") false :: ys) :=
  resolveLibraries_native_then_artifact rm0 linuxP bothLib []
    [("natives-linux", JValue.obj
       [("sha1", JValue.str "S"), ("size", JValue.num 10),
        ("url", JValue.str "U"), ("path", JValue.str "P")])]
    [("linux", JValue.str "natives-linux")]
    [("sha1", JValue.str "S"), ("size", JValue.num 10),
     ("url", JValue.str "U"), ("path", JValue.str "P")]
    (JValue.str "natives-linux")
    (JValue.obj
      [("sha1", JValue.str "S"), ("size", JValue.num 10),
       ("url", JValue.str "U"), ("path", JValue.str "P")])
    (JValue.str "S") (JValue.num 10) (JValue.str "U") (JValue.str "P")
    "natives-linux" "U" "P" (LibraryDownload.mk "as" 5 "au" "ap")
    rfl rfl rfl rfl rfl rfl rfl rfl rfl rfl rfl rfl rfl rfl rfl

/-- C4 counterexample: the claim says the resolved game/jvm token lists are
the expansion of the descriptor's supplied argument templates.  The code
assigns the static defaults unconditionally (src/core/version.rs lines
439-440; the template-reading code is commented out and _resolve_arguments is
never called): a descriptor supplying the single game template "--demo"
resolves to the default game token list, while the expansion of its templates
is ["--demo"], and the two differ. -/
theorem parse_ignores_supplied_argument_templates :
    gameArgsOf (Version.parse rm0 loaderNone "versions" 0 windowsP leafArgs) =
      some DEFAULT_GAME_ARGS ∧
    resolveArguments rm0 windowsP [JValue.str "--demo"] = some ["--demo"] ∧
    DEFAULT_GAME_ARGS ≠ ["--demo"] := by
  exact ⟨by decide, by decide, by decide⟩

/-- Whenever the post-walk phase succeeds, the argument lists it builds are
the static defaults. -/
theorem buildResolved_args (rm : String → String → Bool) (p : PlatformInfo)
    (self : Version) (vs : List Version) (is ps : List String)
    (h : isOk (buildResolved rm p self vs is ps) = true) :
    argsOf (buildResolved rm p self vs is ps) =
      some (some (ResolvedArguments.mk DEFAULT_GAME_ARGS DEFAULT_JVM_ARGS)) := by
  unfold buildResolved at h ⊢
  by_cases hc : (mergeVersions vs).mainClass = "" ∨
      (mergeVersions vs).assetsIndex = AssetIndex.mk 0 "" "" 0 ∨
      (mergeVersions vs).downloads = []
  · rw [if_pos hc] at h; simp [isOk] at h
  · rw [if_neg hc] at h ⊢
    cases hr : resolveLibraries rm p (mergeVersions vs).librariesRaw with
    | none => rw [hr] at h; simp [isOk] at h
    | some libs => rfl

/-- C4 amended: whenever Version::parse succeeds, its resolved argument lists
are the built-in default game and jvm token lists, whatever argument templates
the descriptor chain supplied - the template expansion path
(_resolve_arguments) is disabled in the code. -/
theorem parse_arguments_always_default (rm : String → String → Bool)
    (loader : String → Option Version) (folder : String) (fuel : Nat)
    (p : PlatformInfo) (self : Version)
    (hok : isOk (Version.parse rm loader folder fuel p self) = true) :
    argsOf (Version.parse rm loader folder fuel p self) =
      some (some (ResolvedArguments.mk DEFAULT_GAME_ARGS DEFAULT_JVM_ARGS)) := by
  unfold Version.parse at hok ⊢
  cases hW : walkChain loader folder fuel self.inheritsFrom [self] [] [] with
  | missing id => rw [hW] at hok; simp [isOk] at hok
  | diverge => rw [hW] at hok; simp [isOk] at hok
  | ok vs is ps =>
    rw [hW] at hok
    show argsOf (buildResolved rm p self vs is ps) = _
    exact buildResolved_args rm p self vs is ps hok

/-- C4 amended witness: a concrete complete descriptor supplying templates
still parses with the default argument lists. -/
theorem parse_arguments_always_default_witness :
    isOk (Version.parse rm0 loaderNone "versions" 0 windowsP leafArgs) = true ∧
    argsOf (Version.parse rm0 loaderNone "versions" 0 windowsP leafArgs) =
      some (some (ResolvedArguments.mk DEFAULT_GAME_ARGS DEFAULT_JVM_ARGS)) :=
  ⟨by decide,
   parse_arguments_always_default rm0 loaderNone "versions" 0 windowsP leafArgs (by decide)⟩
